import Mathlib

/-!
Verification of the adapter contract of `src/firefly_server.py` (an MCP tool
server fronting the Firefly III REST API).

Modelling conventions, used uniformly below:

* MCP tool parameters are Python `str` values; they are modelled as `String`.
* Python exceptions are modelled by the inductive type `PyExc`; a fallible
  computation is `Except PyExc α`.  Every adapter body in the source sits in a
  `try/except` whose handler returns `format_error(e)`; correspondingly each
  modelled adapter pattern-matches on the `Except` results of its backend
  calls and maps `.error e` to `format_error e`, so the adapter itself is a
  total function into `String`.
* The `firefly_iii_client` API object obtained from `get_api_client()` is
  modelled by passing each adapter the backend method(s) it invokes as a
  function argument (the call-counting stub-client view of the spec).  Client
  acquisition itself is modelled separately (`get_api_client` below).
* Each adapter returns, besides its result string, the list (or count) of
  backend requests it actually issued, so "issues zero / exactly one backend
  call" is a statement about that trace.
* `datetime.now()` is modelled by an explicit `today : String` argument where
  the source consults it.
* Python string methods: `str.strip()` is `pyStrip`, `str.lower()` is
  `pyLower`, `str.isdigit()` is `pyIsDigitStr` (exact for the ASCII strings
  considered here), `s.split(",")` is `String.splitOn ","`, truthiness of a
  string is non-emptiness.
-/

/-- Python `str.strip()` (trim ASCII whitespace at both ends), computed
structurally over the character list. -/
def pyStrip (s : String) : String :=
  String.mk ((s.data.dropWhile Char.isWhitespace).rdropWhile Char.isWhitespace)

/-- Python `str.lower()` (ASCII case folding), computed structurally over
the character list. -/
def pyLower (s : String) : String :=
  String.mk (s.data.map Char.toLower)

/-- Python `str.isdigit()` restricted to ASCII strings: non-empty and all
characters decimal digits. -/
def pyIsDigitStr (s : String) : Bool := s ≠ "" && s.data.all (fun c => c.isDigit)

/-- Python truthiness of a string (`if s:`): non-empty. -/
def pyTruthy (s : String) : Bool := s ≠ ""

/-- Python `a or b` for an optional string field against a default:
`None` and `""` are falsy. -/
def pyOrStr (o : Option String) (d : String) : String :=
  match o with
  | none => d
  | some s => if s = "" then d else s

/-- Exceptions that can cross an adapter body, after
`from firefly_iii_client.rest import ApiException`.
`ApiException` carries a status, a reason phrase, the `str(e)` rendering and
the response body; `bodyJson` models `json.loads(e.body)` followed by
`.get("message")`: `none` = body is not valid JSON, `some none` = valid JSON
without a `"message"` key, `some (some m)` = message `m`. -/
inductive PyExc where
  | apiException (status : Nat) (bodyJson : Option (Option String)) (reason strRepr : String)
  | valueError (msg : String)
  | other (msg : String)
deriving DecidableEq, Repr

deriving instance DecidableEq for Except

/-- `format_error` (src/firefly_server.py lines 70-79): render an exception
for user display. -/
def format_error : PyExc → String
  | .apiException status (some (some msg)) _ _ =>
    "❌ API Error (" ++ toString status ++ "): " ++ msg
  | .apiException status (some none) _ strRepr =>
    "❌ API Error (" ++ toString status ++ "): " ++ strRepr
  | .apiException status none reason _ =>
    "❌ API Error (" ++ toString status ++ "): " ++ reason
  | .valueError msg => "❌ Error: " ++ msg
  | .other msg => "❌ Error: " ++ msg

/-- `format_amount` (lines 81-86).  The source reformats a parseable amount
to two decimal places via Python `float`; the reformatting itself is
presentation-only and no theorem below depends on it, so the parseable case
is modelled as the identity on the already-decimal backend string. -/
def format_amount (amount : String) : String := amount

-- ===========================================================================
-- Client manager (`load_config`, `get_api_client`, lines 34-68)
-- ===========================================================================

/-- The `"firefly"` section of `~/.config/mcp-secrets.json` as returned by
`load_config()`: each field is `config.get(...)`, `none` when the key is
absent (also when the file is missing, in which case both are `none`). -/
structure FireflyConfig where
  base_url : Option String
  token : Option String
deriving DecidableEq, Repr

/-- `firefly_iii_client.configuration.Configuration` with the access token
set: the constructed client handle (`_api_client` wraps exactly this data). -/
structure Configuration where
  host : String
  access_token : String
deriving DecidableEq, Repr

/-- Python `not config.get(k)` for an optional string: falsy when the key is
absent or its value is the empty string. -/
def pyGetTruthy (o : Option String) : Bool :=
  match o with
  | none => false
  | some s => s ≠ ""

/-- `base_url.rstrip("/")`. -/
def pyRstripSlash (s : String) : String :=
  String.mk (s.data.rdropWhile (fun c => c = '/'))

/-- `base_url.endswith("/api")`, over the character lists. -/
def pyEndsWithApi (s : String) : Bool :=
  decide ("/api".data <:+ s.data)

/-- Lines 56-59: strip trailing slashes, then append `/api` unless already
present. -/
def normalizeBaseUrl (url : String) : String :=
  let base_url := pyRstripSlash url
  if pyEndsWithApi base_url then base_url else base_url ++ "/api"

/-- The construction attempted in the `_api_client is None` branch of
`get_api_client` (lines 52-66): check the config, normalize the base URL,
attach the bearer token. -/
def buildClient (config : FireflyConfig) : Except PyExc Configuration :=
  if ¬ pyGetTruthy config.base_url ∨ ¬ pyGetTruthy config.token then
    .error (.valueError "Missing base_url or token in ~/.config/mcp-secrets.json")
  else
    .ok { host := normalizeBaseUrl (config.base_url.getD "")
          access_token := config.token.getD "" }

/-- `get_api_client` (lines 47-68) as a step on the `_api_client` global:
given the config the secrets file would yield and the current global state,
return the call's outcome, the new state, and how many times `load_config()`
was invoked during the call. -/
def get_api_client (config : FireflyConfig) (st : Option Configuration) :
    Except PyExc Configuration × Option Configuration × Nat :=
  match st with
  | some c => (.ok c, some c, 0)
  | none =>
    match buildClient config with
    | .error e => (.error e, none, 1)
    | .ok c => (.ok c, some c, 1)

/-- Global `_api_client` state after `n` sequential `get_api_client()` calls,
starting from the initial `None`. -/
def clientStateAfter (config : FireflyConfig) : Nat → Option Configuration
  | 0 => none
  | n + 1 => (get_api_client config (clientStateAfter config n)).2.1

/-- The result and config-read count of the `(n+1)`-th sequential call. -/
def nthClientCall (config : FireflyConfig) (n : Nat) :
    Except PyExc Configuration × Option Configuration × Nat :=
  get_api_client config (clientStateAfter config n)

-- ===========================================================================
-- Shared string helpers for the adapters
-- ===========================================================================

/-- Python `needle in hay` for strings (substring test). -/
def pyInStr (needle hay : String) : Bool :=
  decide (needle.data <:+: hay.data)

/-- Prefix test over the character lists (used to state the error-marker
property). -/
def pyStartsWith (s p : String) : Bool :=
  decide (p.data <+: s.data)

/-- Python `int(s)`: strip whitespace, optional sign, decimal digits
(digit-group underscores are not modelled; no caller passes them). `none`
when the literal is invalid. -/
def pyIntCore (s : String) : Option Int :=
  let t := (pyStrip s).data
  let signed : Int × List Char :=
    match t with
    | '-' :: rest => (-1, rest)
    | '+' :: rest => (1, rest)
    | l => (1, l)
  if signed.2 ≠ [] ∧ signed.2.all (fun c => c.isDigit) then
    some (signed.1 * (signed.2.foldl (fun n c => n * 10 + (c.toNat - '0'.toNat)) 0 : Nat))
  else none

/-- Python `int(s)` as a fallible computation (raises `ValueError` on an
invalid literal). -/
def pyInt (s : String) : Except PyExc Int :=
  match pyIntCore s with
  | some n => .ok n
  | none => .error (.valueError ("invalid literal for int() with base 10: \x27" ++ s ++ "\x27"))

-- ===========================================================================
-- Accounts adapters (lines 132-294)
-- ===========================================================================

/-- One row of `api.list_account(...)` response data, with the two
`hasattr`-guarded attributes optional. -/
structure AccountListItem where
  id : String
  name : String
  type : String
  current_balance : Option String
  currency_code : Option String
deriving DecidableEq, Repr

/-- One markdown row of the `list_accounts` table (line 161). -/
def accountRow (acc : AccountListItem) : String :=
  let balance := acc.current_balance.getD "0"
  let currency := acc.currency_code.getD "N/A"
  "| " ++ acc.id ++ " | " ++ acc.name ++ " | " ++ acc.type ++ " | " ++
    balance ++ " | " ++ currency ++ " |\n"

/-- `list_accounts` (lines 132-165).  `listAccount` is the
`api.list_account` method of the shared client; the optional argument is
`params['type']`.  Returns the result string and the number of backend calls
issued. -/
def list_accounts (listAccount : Option String → Except PyExc (List AccountListItem))
    (account_type name_filter : String) : String × Nat :=
  let params := if pyTruthy account_type then some account_type else none
  match listAccount params with
  | .error e => (format_error e, 1)
  | .ok accounts =>
    let filtered :=
      if pyTruthy name_filter then
        accounts.filter (fun acc => pyInStr (pyLower name_filter) (pyLower acc.name))
      else accounts
    if filtered.isEmpty then ("📭 No accounts found matching criteria", 1)
    else
      (("💰 Found " ++ toString filtered.length ++ " account(s):\n\n" ++
        "| ID | Name | Type | Balance | Currency |\n" ++
        "|------|------|------|---------|----------|\n") ++
        ((filtered.take 50).foldl (fun acc r => acc ++ accountRow r) ""), 1)

/-- The attribute fields of `api.get_account(id)` read by
`get_account_details`; `Option` fields are the ones rendered through
Python `or`. -/
structure AccountDetail where
  id : String
  name : String
  type : String
  account_number : Option String
  iban : Option String
  currency_code : String
  current_balance : String
  active : Bool
  account_role : Option String
  notes : Option String
deriving DecidableEq, Repr

/-- The narrative block of `get_account_details` (lines 179-191). -/
def renderAccountDetail (a : AccountDetail) : String :=
  let activeStr := if a.active then "Yes" else "No"
  "💳 Account Details: " ++ a.name ++ "\n\n" ++
  "**ID:** " ++ a.id ++ "\n" ++
  "**Type:** " ++ a.type ++ "\n" ++
  "**Account Number:** " ++ pyOrStr a.account_number "N/A" ++ "\n" ++
  "**IBAN:** " ++ pyOrStr a.iban "N/A" ++ "\n" ++
  "**Currency:** " ++ a.currency_code ++ "\n" ++
  "**Current Balance:** " ++ a.current_balance ++ "\n" ++
  "**Active:** " ++ activeStr ++ "\n" ++
  "**Role:** " ++ pyOrStr a.account_role "N/A" ++ "\n\n" ++
  "**Notes:** " ++ pyOrStr a.notes "None" ++ "\n"

/-- `get_account_details` (lines 167-194): validates the required
`account_id` (post-trim non-empty) before the single backend call. -/
def get_account_details (getAccount : String → Except PyExc AccountDetail)
    (account_id : String) : String × Nat :=
  if pyStrip account_id = "" then ("❌ Error: account_id is required", 0)
  else
    match getAccount account_id with
    | .error e => (format_error e, 1)
    | .ok acc => (renderAccountDetail acc, 1)

/-- The `AccountUpdate` payload built by `update_account`: a field is present
exactly when the corresponding parameter was supplied non-empty. -/
structure AccountUpdate where
  name : Option String := none
  active : Option Bool := none
  notes : Option String := none
deriving DecidableEq, Repr

/-- Lines 261-267: the conditionally-populated `update_data` dict;
`active` is coerced by `active.lower() == "true"`. -/
def buildAccountUpdate (name active notes : String) : AccountUpdate :=
  { name := if pyTruthy name then some name else none
    active := if pyTruthy active then some (pyLower active = "true") else none
    notes := if pyTruthy notes then some notes else none }

/-- `update_account` (lines 251-277): required `account_id`, then the
at-least-one-field check (`if not update_data`), then a single
`api.update_account` call carrying exactly the supplied fields.  The trace
records the `(account_id, payload)` of each issued backend call; the backend
returns the updated account's name for the success message. -/
def update_account (updateAccount : String → AccountUpdate → Except PyExc String)
    (account_id name active notes : String) : String × List (String × AccountUpdate) :=
  if pyStrip account_id = "" then ("❌ Error: account_id is required", [])
  else
    let update_data := buildAccountUpdate name active notes
    if update_data = {} then
      ("❌ Error: At least one field to update is required", [])
    else
      match updateAccount account_id update_data with
      | .error e => (format_error e, [(account_id, update_data)])
      | .ok accName =>
        ("✅ Updated account: " ++ accName, [(account_id, update_data)])

/-- `delete_account` (lines 279-294): required `account_id`, then the exact
confirmation literal `"DELETE"`, then a single `api.delete_account` call. -/
def delete_account (deleteAccount : String → Except PyExc Unit)
    (account_id confirm : String) : String × Nat :=
  if pyStrip account_id = "" then ("❌ Error: account_id is required", 0)
  else if confirm ≠ "DELETE" then
    ("⚠️ Warning: This will permanently delete the account. Set confirm=\x27DELETE\x27 to proceed.", 0)
  else
    match deleteAccount account_id with
    | .error e => (format_error e, 1)
    | .ok _ => ("✅ Deleted account ID: " ++ account_id, 1)

-- ===========================================================================
-- Attachments-by-account adapter (lines 3128-3144) and
-- budget-limit deletion (lines 3436-3446)
-- ===========================================================================

/-- The fields of one attachment read by `list_attachments_by_account`. -/
structure AttachmentRead where
  id : String
  filename : String
  title : String
  size : Int
deriving DecidableEq, Repr

/-- JSON string literal; escaping of special characters inside the value is
not modelled (no theorem below inspects this rendering). -/
def jsonStr (s : String) : String := "\"" ++ s ++ "\""

/-- One element of the `"attachments"` array as `json.dumps(..., indent=2)`
lays it out. -/
def attachmentJsonBlock (att : AttachmentRead) : String :=
  "    \x7b\n      \"id\": " ++ jsonStr att.id ++
  ",\n      \"filename\": " ++ jsonStr att.filename ++
  ",\n      \"title\": " ++ jsonStr att.title ++
  ",\n      \"size\": " ++ toString att.size ++ "\n    \x7d"

/-- `json.dumps({"account_id": ..., "attachments": [...]}, indent=2)`
(line 3142). -/
def renderAttachmentsJson (account_id : String) (atts : List AttachmentRead) : String :=
  let arr :=
    if atts.isEmpty then "[]"
    else "[\n" ++ String.intercalate ",\n" (atts.map attachmentJsonBlock) ++ "\n  ]"
  "\x7b\n  \"account_id\": " ++ jsonStr account_id ++
  ",\n  \"attachments\": " ++ arr ++ "\n\x7d"

/-- `list_attachments_by_account` (lines 3128-3144).  Note: `account_id` is
NOT validated; it is forwarded to the backend as supplied.  The page string
is coerced by `int(page) if page else None` before the call; a coercion
failure is caught by the adapter boundary with zero backend calls. -/
def list_attachments_by_account
    (listAttachmentByAccount : String → Option Int → Except PyExc (List AttachmentRead))
    (account_id page : String) : String × Nat :=
  match (if pyTruthy page then (pyInt page).map some else .ok none) with
  | .error e => (format_error e, 0)
  | .ok p =>
    match listAttachmentByAccount account_id p with
    | .error e => (format_error e, 1)
    | .ok resp => (renderAttachmentsJson account_id resp, 1)

/-- `delete_budget_limit` (lines 3436-3446): the confirmation check is
`confirm.lower() != "yes"` — case-insensitive — and neither identifier is
validated; on passing the check a single `api.delete_budget_limit` call is
issued. -/
def delete_budget_limit (deleteBudgetLimit : String → String → Except PyExc Unit)
    (budget_id budget_limit_id confirm : String) : String × Nat :=
  if pyLower confirm ≠ "yes" then
    ("⚠️  Deletion requires confirm=\x27yes\x27", 0)
  else
    match deleteBudgetLimit budget_id budget_limit_id with
    | .error e => (format_error e, 1)
    | .ok _ => ("✅ Budget limit " ++ budget_limit_id ++ " deleted", 1)

-- ===========================================================================
-- Transaction adapters (`create_withdrawal` lines 403-456,
-- `update_transaction` lines 550-595)
-- ===========================================================================

/-- The `TransactionSplitStore` payload built by `create_withdrawal`
(the `transaction_split` dict, lines 418-443): a field is `none` exactly when
the corresponding dict key is never assigned. -/
structure TransactionSplitStore where
  type : String
  date : String
  amount : String
  description : String
  source_id : Option String := none
  destination_id : Option String := none
  destination_name : Option String := none
  category_name : Option String := none
  budget_id : Option String := none
  budget_name : Option String := none
  tags : Option (List String) := none
  notes : Option String := none
deriving DecidableEq, Repr

/-- The `TransactionStore` request body (lines 445-449). -/
structure TransactionStore where
  error_if_duplicate_hash : Bool
  apply_rules : Bool
  transactions : List TransactionSplitStore
deriving DecidableEq, Repr

/-- The fields of `result.data` read back for the success message of a
transaction-store call. -/
structure StoredTransaction where
  id : String
  description : String
  amount : String
  currency_code : String
deriving DecidableEq, Repr

/-- The `transaction_split` dict of `create_withdrawal` (lines 416-443),
after the `"Cash account"` substitution for an unsupplied destination.
Identifier routing uses `ref.strip().isdigit()` but stores the original
(untrimmed) string in the chosen field. -/
def createWithdrawalSplit (description amount source_account destination_account
    date category budget tags notes today : String) : TransactionSplitStore :=
  let transaction_date := if pyTruthy date then date else today
  { type := "withdrawal"
    date := transaction_date
    amount := amount
    description := description
    source_id := some source_account
    destination_id :=
      if pyIsDigitStr (pyStrip destination_account) then some destination_account else none
    destination_name :=
      if pyIsDigitStr (pyStrip destination_account) then none else some destination_account
    category_name := if pyTruthy category then some category else none
    budget_id :=
      if pyTruthy budget ∧ pyIsDigitStr (pyStrip budget) then some budget else none
    budget_name :=
      if pyTruthy budget ∧ ¬ pyIsDigitStr (pyStrip budget) then some budget else none
    tags := if pyTruthy tags then some ((tags.splitOn ",").map pyStrip) else none
    notes := if pyTruthy notes then some notes else none }

/-- The `TransactionStore` request body of `create_withdrawal`
(lines 445-449): duplicate-hash detection disabled, rules applied, a single
split. -/
def createWithdrawalStore (description amount source_account destination_account date category
    budget tags notes today : String) : TransactionStore :=
  { error_if_duplicate_hash := false
    apply_rules := true
    transactions := [createWithdrawalSplit description amount source_account
      destination_account date category budget tags notes today] }

/-- `create_withdrawal` (lines 403-456).  `today` models
`datetime.now().strftime("%Y-%m-%d")`.  The trace is the list of
`TransactionStore` bodies sent to `api.store_transaction`. -/
def create_withdrawal (storeTransaction : TransactionStore → Except PyExc StoredTransaction)
    (description amount source_account destination_account date category budget tags notes
     today : String) : String × List TransactionStore :=
  if pyStrip description = "" ∨ pyStrip amount = "" ∨ pyStrip source_account = "" then
    ("❌ Error: description, amount, and source_account are required", [])
  else
    let destination_account :=
      if pyStrip destination_account = "" then "Cash account" else destination_account
    let transaction_store := createWithdrawalStore description amount source_account
      destination_account date category budget tags notes today
    match storeTransaction transaction_store with
    | .error e => (format_error e, [transaction_store])
    | .ok txn_data =>
      ("✅ Created withdrawal: " ++ txn_data.description ++
       "\nAmount: " ++ format_amount txn_data.amount ++ " " ++ txn_data.currency_code ++
       "\nID: " ++ txn_data.id, [transaction_store])

/-- The `TransactionSplitUpdate` payload built by `update_transaction`
(the `update_split` dict, lines 569-586): one field per conditionally
assigned key.  Note `budget` always goes to `budget_id` (line 582). -/
structure TransactionSplitUpdate where
  date : Option String := none
  amount : Option String := none
  description : Option String := none
  category_name : Option String := none
  budget_id : Option String := none
  tags : Option (List String) := none
  notes : Option String := none
deriving DecidableEq, Repr

/-- Lines 569-586: the conditionally-populated `update_split` dict. -/
def buildUpdateSplit (description amount date category budget tags notes : String) :
    TransactionSplitUpdate :=
  { date := if pyTruthy date then some date else none
    amount := if pyTruthy amount then some amount else none
    description := if pyTruthy description then some description else none
    category_name := if pyTruthy category then some category else none
    budget_id := if pyTruthy budget then some budget else none
    tags := if pyTruthy tags then some ((tags.splitOn ",").map pyStrip) else none
    notes := if pyTruthy notes then some notes else none }

/-- The fields of the re-fetched existing transaction
(`existing.data.attributes.transactions[0]`, line 566).  The source binds
this value but never reads it afterwards. -/
structure ExistingTxn where
  description : String
  amount : String
  date : String
  category_name : Option String
  budget_id : Option String
  notes : Option String
deriving DecidableEq, Repr

/-- One backend request issued by `update_transaction`. -/
inductive TxnBackendCall where
  | getTransaction (id : String)
  | updateTransaction (id : String) (split : TransactionSplitUpdate)
deriving DecidableEq, Repr

/-- `update_transaction` (lines 550-595): validates `transaction_id`,
re-fetches the existing transaction (`api.get_transaction`), then sends a
`TransactionUpdate` built ONLY from the supplied parameters (the fetched
value is never merged in), as the single-split body of
`api.update_transaction`. -/
def update_transaction (getTxn : String → Except PyExc ExistingTxn)
    (updTxn : String → TransactionSplitUpdate → Except PyExc Unit)
    (transaction_id description amount date category budget tags notes : String) :
    String × List TxnBackendCall :=
  if pyStrip transaction_id = "" then ("❌ Error: transaction_id is required", [])
  else
    match getTxn transaction_id with
    | .error e => (format_error e, [.getTransaction transaction_id])
    | .ok _existing =>
      let update_split := buildUpdateSplit description amount date category budget tags notes
      match updTxn transaction_id update_split with
      | .error e =>
        (format_error e,
         [.getTransaction transaction_id, .updateTransaction transaction_id update_split])
      | .ok _ =>
        ("✅ Updated transaction ID: " ++ transaction_id,
         [.getTransaction transaction_id, .updateTransaction transaction_id update_split])

-- ===========================================================================
-- Aggregate summaries (`spending_summary` lines 1772-1829,
-- `income_summary` lines 1831-1888)
-- ===========================================================================

/-- The per-transaction fields consulted by the summary grouping loop
(`txn.attributes.transactions[0]`); the amount, `float(txn_data.amount)`,
is modelled as a rational. -/
structure TxnRow where
  amount : ℚ
  category_name : Option String
  budget_name : Option String
  source_name : String
  destination_name : String
deriving DecidableEq, Repr

/-- The grouping key of `spending_summary` (lines 1804-1811); Python `or`
turns both `None` and `""` into the default. -/
def spendingKey (group_by : String) (t : TxnRow) : String :=
  if group_by = "category" then pyOrStr t.category_name "Uncategorized"
  else if group_by = "budget" then pyOrStr t.budget_name "No Budget"
  else if group_by = "account" then t.source_name
  else "Other"

/-- The grouping key of `income_summary` (lines 1863-1870): identical except
that the account key is the destination. -/
def incomeKey (group_by : String) (t : TxnRow) : String :=
  if group_by = "category" then pyOrStr t.category_name "Uncategorized"
  else if group_by = "budget" then pyOrStr t.budget_name "No Budget"
  else if group_by = "account" then t.destination_name
  else "Other"

/-- `grouped[key] = grouped.get(key, 0) + amount` (lines 1813-1815) on an
insertion-ordered association list, exactly as a Python dict behaves. -/
def addToGroup : List (String × ℚ) → String → ℚ → List (String × ℚ)
  | [], k, a => [(k, a)]
  | (k₀, v) :: rest, k, a =>
    if k₀ = k then (k₀, v + a) :: rest else (k₀, v) :: addToGroup rest k a

/-- The `grouped` dict after the loop over all fetched transactions. -/
def summaryGroups (key : TxnRow → String) (ts : List TxnRow) : List (String × ℚ) :=
  ts.foldl (fun acc t => addToGroup acc (key t) t.amount) []

/-- The running `total` accumulated over all fetched transactions
(line 1802). -/
def summaryTotal (ts : List TxnRow) : ℚ :=
  ts.foldl (fun s t => s + t.amount) 0

/-- `pct = (amount / total * 100) if total > 0 else 0` (line 1823). -/
def summaryPct (total amount : ℚ) : ℚ :=
  if total > 0 then amount / total * 100 else 0

/-- Association-list lookup matching Python `key in grouped` /
`grouped[key]`. -/
def lookupG : List (String × ℚ) → String → Option ℚ
  | [], _ => none
  | (k₀, v) :: rest, k => if k₀ = k then some v else lookupG rest k

-- ===========================================================================
-- Spec-side definitions and stub backends used in the theorems
-- ===========================================================================

/-- Modelled from the spec: the spec's routing predicate in its own words —
"the supplied reference string consists only of decimal digits" — to be
compared with the code's test, which is applied to the TRIMMED string. -/
def onlyDecimalDigits (s : String) : Bool :=
  s ≠ "" && s.data.all (fun c => c.isDigit)

/-- The arithmetic sum of the amounts of the transactions whose key is `k`
(the spec's "arithmetic sum of that group's amounts"). -/
def groupSum (key : TxnRow → String) (ts : List TxnRow) (k : String) : ℚ :=
  ((ts.filter (fun t => key t = k)).map (fun t => t.amount)).sum

/-- Call-counting stub backend: delete-account method that succeeds. -/
def stubDeleteOk : String → Except PyExc Unit := fun _ => .ok ()

/-- Call-counting stub backend: delete-budget-limit method that succeeds. -/
def stubDeleteBudgetLimitOk : String → String → Except PyExc Unit := fun _ _ => .ok ()

/-- Call-counting stub backend: list-attachments method returning no rows. -/
def stubListAttachments : String → Option Int → Except PyExc (List AttachmentRead) :=
  fun _ _ => .ok []

/-- Call-counting stub backend: store-transaction method with a fixed
response. -/
def stubStoreOk : TransactionStore → Except PyExc StoredTransaction :=
  fun _ => .ok { id := "10", description := "Coffee", amount := "3.50", currency_code := "USD" }

/-- Call-counting stub backend: get-transaction method returning a fixed
existing transaction. -/
def stubGetTxnOk : String → Except PyExc ExistingTxn :=
  fun _ => .ok { description := "old description", amount := "50.00", date := "2024-01-01"
                 category_name := some "Food", budget_id := some "2", notes := some "old notes" }

/-- Call-counting stub backend: update-transaction method that succeeds. -/
def stubUpdTxnOk : String → TransactionSplitUpdate → Except PyExc Unit := fun _ _ => .ok ()

/-- Call-counting stub backend: update-account method echoing a fixed name. -/
def stubUpdAccountOk : String → AccountUpdate → Except PyExc String :=
  fun _ _ => .ok "Checking"

-- ===========================================================================
-- Helper lemmas
-- ===========================================================================

theorem pyStartsWith_append_left (s t p : String) (h : pyStartsWith s p = true) :
    pyStartsWith (s ++ t) p = true := by
  simp only [pyStartsWith, decide_eq_true_eq, String.data_append] at h ⊢
  exact h.trans (List.prefix_append s.data t.data)

theorem format_error_marker (e : PyExc) : pyStartsWith (format_error e) "❌" = true := by
  cases e with
  | apiException status bodyJson reason strRepr =>
    cases bodyJson with
    | none =>
      exact pyStartsWith_append_left _ _ _
        (pyStartsWith_append_left _ _ _ (pyStartsWith_append_left _ _ _ (by decide)))
    | some o =>
      cases o with
      | none =>
        exact pyStartsWith_append_left _ _ _
          (pyStartsWith_append_left _ _ _ (pyStartsWith_append_left _ _ _ (by decide)))
      | some msg =>
        exact pyStartsWith_append_left _ _ _
          (pyStartsWith_append_left _ _ _ (pyStartsWith_append_left _ _ _ (by decide)))
  | valueError msg => exact pyStartsWith_append_left _ _ _ (by decide)
  | other msg => exact pyStartsWith_append_left _ _ _ (by decide)

-- ===========================================================================
-- C1: confirmation gating of destructive adapters
-- ===========================================================================

/-- C1 counterexample: `delete_budget_limit`, a destructive adapter with
fixed confirmation literal `"yes"`, accepts `confirm="YES"` — a value that
does NOT equal the exact literal — and issues one backend call with a
success message instead of returning the warning string with zero calls:
the comparison is `confirm.lower() != "yes"`, i.e. case-insensitive. -/
theorem delete_budget_limit_confirm_case_insensitive_cx :
    delete_budget_limit stubDeleteBudgetLimitOk "1" "2" "YES" =
      ("✅ Budget limit 2 deleted", 1) ∧
    "YES" ≠ "yes" := by
  decide

/-- C1 (amended): for the `"DELETE"`-literal destructive adapters
(`delete_account` shape) the confirmation comparison is exact, and the
identifier is validated first (so the warning branch presumes a non-empty
identifier); for the `"yes"`-literal adapters (`delete_budget_limit` shape)
the comparison is case-insensitive in the supplied value.  In both shapes a
failed comparison returns the warning string and issues zero backend calls,
and a passing comparison issues exactly one backend call. -/
theorem destructive_confirmation_gating
    (del : String → Except PyExc Unit) (dbl : String → String → Except PyExc Unit)
    (account_id confirm budget_id budget_limit_id : String)
    (hid : pyStrip account_id ≠ "") :
    (confirm ≠ "DELETE" →
      delete_account del account_id confirm =
        ("⚠️ Warning: This will permanently delete the account. Set confirm=\x27DELETE\x27 to proceed.", 0)) ∧
    (confirm = "DELETE" → (delete_account del account_id confirm).2 = 1) ∧
    (pyLower confirm ≠ "yes" →
      delete_budget_limit dbl budget_id budget_limit_id confirm =
        ("⚠️  Deletion requires confirm=\x27yes\x27", 0)) ∧
    (pyLower confirm = "yes" →
      (delete_budget_limit dbl budget_id budget_limit_id confirm).2 = 1) := by
  refine ⟨?_, ?_, ?_, ?_⟩
  · intro hc
    simp [delete_account, hid, hc]
  · intro hc
    subst hc
    cases h : del account_id <;> simp [delete_account, hid, h]
  · intro hc
    simp [delete_budget_limit, hc]
  · intro hc
    cases h : dbl budget_id budget_limit_id <;> simp [delete_budget_limit, hc, h]

/-- Witness for the amended C1 at concrete inputs. -/
theorem destructive_confirmation_gating_witness :
    delete_account stubDeleteOk "7" "delete" =
      ("⚠️ Warning: This will permanently delete the account. Set confirm=\x27DELETE\x27 to proceed.", 0) ∧
    (delete_account stubDeleteOk "7" "DELETE").2 = 1 := by
  have h1 := destructive_confirmation_gating stubDeleteOk stubDeleteBudgetLimitOk
    "7" "delete" "1" "2" (by decide)
  have h2 := destructive_confirmation_gating stubDeleteOk stubDeleteBudgetLimitOk
    "7" "DELETE" "1" "2" (by decide)
  exact ⟨h1.1 (by decide), h2.2.1 rfl⟩

-- ===========================================================================
-- C2: required-parameter validation before any backend call
-- ===========================================================================

/-- C2 counterexample: `list_attachments_by_account` needs `account_id`
(the endpoint is keyed on it), yet performs no validation: called with the
empty `account_id` it issues one backend call (forwarding the empty string)
instead of returning the validation-error string with zero calls. -/
theorem list_attachments_skips_validation_cx :
    (list_attachments_by_account stubListAttachments "" "").2 = 1 ∧
    pyStartsWith (list_attachments_by_account stubListAttachments "" "").1 "❌" = false := by
  decide

/-- C2 (amended): the adapters that do validate a required parameter
(`get_account_details` shape) return the validation-error string and issue
zero backend calls when that parameter is empty or whitespace-only; but the
check is not present in every adapter with a logically required parameter —
`list_attachments_by_account` forwards even an empty `account_id` to the
backend. -/
theorem required_param_short_circuit
    (getAccount : String → Except PyExc AccountDetail) (account_id : String)
    (h : pyStrip account_id = "") :
    get_account_details getAccount account_id =
      ("❌ Error: account_id is required", 0) := by
  simp [get_account_details, h]

/-- Witness for the amended C2: a whitespace-only `account_id`. -/
theorem required_param_short_circuit_witness :
    get_account_details (fun _ => .error (.other "backend unreachable")) "   " =
      ("❌ Error: account_id is required", 0) :=
  required_param_short_circuit _ "   " (by decide)

-- ===========================================================================
-- C3: the adapter boundary catches everything and renders marked strings
-- ===========================================================================

/-- C3: adapters are terminal boundaries returning strings.  Every exception
rendering produced by `format_error` begins with the `❌` marker; every
outcome of `list_accounts` is one of the marked result strings (error `❌`,
empty-result `📭`, success `💰`); and an exception raised during parameter
coercion (`int(page)` in `list_attachments_by_account`) is caught at the
boundary, rendered via `format_error`, with zero backend calls issued. -/
theorem adapter_terminal_boundary :
    (∀ e : PyExc, pyStartsWith (format_error e) "❌" = true) ∧
    (∀ (listAccount : Option String → Except PyExc (List AccountListItem))
       (account_type name_filter : String),
       pyStartsWith (list_accounts listAccount account_type name_filter).1 "❌" = true ∨
       pyStartsWith (list_accounts listAccount account_type name_filter).1 "📭" = true ∨
       pyStartsWith (list_accounts listAccount account_type name_filter).1 "💰" = true) ∧
    (∀ (lab : String → Option Int → Except PyExc (List AttachmentRead))
       (account_id page : String) (e : PyExc),
       pyTruthy page = true → pyInt page = .error e →
       list_attachments_by_account lab account_id page = (format_error e, 0)) := by
  refine ⟨format_error_marker, ?_, ?_⟩
  · intro la account_type name_filter
    unfold list_accounts
    cases h : la (if pyTruthy account_type then some account_type else none) with
    | error e => simpa [h] using Or.inl (format_error_marker e)
    | ok accounts =>
      simp only [h]
      by_cases he :
        (if pyTruthy name_filter then
          accounts.filter (fun acc => pyInStr (pyLower name_filter) (pyLower acc.name))
        else accounts).isEmpty
      · simp only [he, if_true]
        right; left; decide
      · simp only [he, if_false]
        right; right
        apply pyStartsWith_append_left
        apply pyStartsWith_append_left
        apply pyStartsWith_append_left
        apply pyStartsWith_append_left
        apply pyStartsWith_append_left
        decide
  · intro lab account_id page e hp he
    simp [list_attachments_by_account, hp, he, Except.map]

/-- Witness for C3: the coercion-failure branch at a concrete input. -/
theorem adapter_terminal_boundary_witness :
    list_attachments_by_account stubListAttachments "1" "abc" =
      (format_error (.valueError "invalid literal for int() with base 10: \x27abc\x27"), 0) :=
  adapter_terminal_boundary.2.2 stubListAttachments "1" "abc" _ (by decide) (by decide)

-- ===========================================================================
-- C4: numeric-vs-name identifier routing
-- ===========================================================================

/-- C4 counterexample: `create_withdrawal` with
`destination_account = " 123 "` — a reference that does NOT consist only of
decimal digits — still populates the ID-keyed field (with the untrimmed
original) and leaves the name-keyed field empty, because the code tests
`destination_account.strip().isdigit()`. -/
theorem routing_trims_before_digit_test_cx :
    (create_withdrawal stubStoreOk "Coffee" "3.50" "1" " 123 " "" "" "" "" "" "2024-03-15").2 =
      [createWithdrawalStore "Coffee" "3.50" "1" " 123 " "" "" "" "" "" "2024-03-15"] ∧
    (createWithdrawalSplit "Coffee" "3.50" "1" " 123 " "" "" "" "" ""
        "2024-03-15").destination_id = some " 123 " ∧
    (createWithdrawalSplit "Coffee" "3.50" "1" " 123 " "" "" "" "" ""
        "2024-03-15").destination_name = none ∧
    onlyDecimalDigits " 123 " = false := by
  decide

/-- C4 (amended): routing is decided on the WHITESPACE-TRIMMED reference —
if the trimmed reference consists only of decimal digits the ID-keyed field
receives the original (untrimmed) reference and the name-keyed field stays
empty, otherwise the reverse — shown for both routed references of
`create_withdrawal` (destination account, budget). -/
theorem identifier_routing
    (description amount source_account destination_account date category budget tags notes
     today : String) :
    (pyIsDigitStr (pyStrip destination_account) = true →
      (createWithdrawalSplit description amount source_account destination_account date
          category budget tags notes today).destination_id = some destination_account ∧
      (createWithdrawalSplit description amount source_account destination_account date
          category budget tags notes today).destination_name = none) ∧
    (pyIsDigitStr (pyStrip destination_account) = false →
      (createWithdrawalSplit description amount source_account destination_account date
          category budget tags notes today).destination_id = none ∧
      (createWithdrawalSplit description amount source_account destination_account date
          category budget tags notes today).destination_name = some destination_account) ∧
    (pyTruthy budget = true → pyIsDigitStr (pyStrip budget) = true →
      (createWithdrawalSplit description amount source_account destination_account date
          category budget tags notes today).budget_id = some budget ∧
      (createWithdrawalSplit description amount source_account destination_account date
          category budget tags notes today).budget_name = none) ∧
    (pyTruthy budget = true → pyIsDigitStr (pyStrip budget) = false →
      (createWithdrawalSplit description amount source_account destination_account date
          category budget tags notes today).budget_id = none ∧
      (createWithdrawalSplit description amount source_account destination_account date
          category budget tags notes today).budget_name = some budget) := by
  refine ⟨?_, ?_, ?_, ?_⟩ <;> intro h
  · simp [createWithdrawalSplit, h]
  · simp [createWithdrawalSplit, h]
  · intro h2
    simp [createWithdrawalSplit, h, h2]
  · intro h2
    simp [createWithdrawalSplit, h, h2]

/-- Witness for the amended C4: a numeric destination reference and a
non-numeric budget reference. -/
theorem identifier_routing_witness :
    (createWithdrawalSplit "Coffee" "3.50" "1" "123" "" "" "Groceries" "" ""
        "2024-03-15").destination_id = some "123" ∧
    (createWithdrawalSplit "Coffee" "3.50" "1" "123" "" "" "Groceries" "" ""
        "2024-03-15").destination_name = none ∧
    (createWithdrawalSplit "Coffee" "3.50" "1" "123" "" "" "Groceries" "" ""
        "2024-03-15").budget_id = none ∧
    (createWithdrawalSplit "Coffee" "3.50" "1" "123" "" "" "Groceries" "" ""
        "2024-03-15").budget_name = some "Groceries" := by
  have h := identifier_routing "Coffee" "3.50" "1" "123" "" "" "Groceries" "" "" "2024-03-15"
  exact ⟨(h.1 (by decide)).1, (h.1 (by decide)).2,
         (h.2.2.2 (by decide) (by decide)).1, (h.2.2.2 (by decide) (by decide)).2⟩

-- ===========================================================================
-- C10: the "Cash account" default destination of create_withdrawal
-- ===========================================================================

/-- C10: when description, amount and source account are supplied but the
destination is empty or whitespace-only, `create_withdrawal` does not fail
validation: it substitutes the literal destination name `"Cash account"`
(populating `destination_name`, not `destination_id`) and issues the backend
store call. -/
theorem create_withdrawal_cash_account_default
    (store : TransactionStore → Except PyExc StoredTransaction)
    (description amount source_account destination_account date category budget tags notes
     today : String)
    (h1 : pyStrip description ≠ "") (h2 : pyStrip amount ≠ "")
    (h3 : pyStrip source_account ≠ "") (hd : pyStrip destination_account = "") :
    (create_withdrawal store description amount source_account destination_account date
        category budget tags notes today).2 =
      [createWithdrawalStore description amount source_account "Cash account" date
         category budget tags notes today] ∧
    (createWithdrawalSplit description amount source_account "Cash account" date
        category budget tags notes today).destination_name = some "Cash account" ∧
    (createWithdrawalSplit description amount source_account "Cash account" date
        category budget tags notes today).destination_id = none := by
  refine ⟨?_, by simp [createWithdrawalSplit]; decide, by simp [createWithdrawalSplit]; decide⟩
  cases h : store (createWithdrawalStore description amount source_account "Cash account" date
      category budget tags notes today) <;>
    simp [create_withdrawal, h1, h2, h3, hd, h]

/-- Witness for C10 at concrete inputs. -/
theorem create_withdrawal_cash_account_default_witness :
    (create_withdrawal stubStoreOk "Coffee" "3.50" "1" " " "" "" "" "" "" "2024-03-15").2 =
      [createWithdrawalStore "Coffee" "3.50" "1" "Cash account" "" "" "" "" "" "2024-03-15"] ∧
    (createWithdrawalSplit "Coffee" "3.50" "1" "Cash account" "" "" "" "" ""
        "2024-03-15").destination_name = some "Cash account" ∧
    (createWithdrawalSplit "Coffee" "3.50" "1" "Cash account" "" "" "" "" ""
        "2024-03-15").destination_id = none :=
  create_withdrawal_cash_account_default stubStoreOk "Coffee" "3.50" "1" " " "" "" "" "" ""
    "2024-03-15" (by decide) (by decide) (by decide) (by decide)

-- ===========================================================================
-- C5 / C6: the client manager
-- ===========================================================================

theorem normalizeBaseUrl_ends (u : String) :
    pyEndsWithApi (normalizeBaseUrl u) = true := by
  unfold normalizeBaseUrl
  by_cases h : pyEndsWithApi (pyRstripSlash u) = true
  · simp [h]
  · simp only [h, Bool.false_eq_true, if_false]
    simp only [pyEndsWithApi, String.data_append, decide_eq_true_eq]
    exact List.suffix_append _ _

/-- C5: on its first call (state `none`), `get_api_client` raises the
configuration `ValueError` when the configured `base_url` or `token` is
absent or empty, and otherwise constructs the handle whose host is the
configured base URL with trailing slashes removed and the `/api` suffix
ensured (appended only when not already a suffix), with the bearer token
attached. -/
theorem get_api_client_first_call (config : FireflyConfig) :
    ((pyGetTruthy config.base_url = false ∨ pyGetTruthy config.token = false) →
      (get_api_client config none).1 =
        .error (.valueError "Missing base_url or token in ~/.config/mcp-secrets.json")) ∧
    (∀ u t : String, config.base_url = some u → config.token = some t → u ≠ "" → t ≠ "" →
      (get_api_client config none).1 =
        .ok { host := normalizeBaseUrl u, access_token := t } ∧
      pyEndsWithApi (normalizeBaseUrl u) = true ∧
      (pyEndsWithApi (pyRstripSlash u) = true → normalizeBaseUrl u = pyRstripSlash u) ∧
      (pyEndsWithApi (pyRstripSlash u) = false →
        normalizeBaseUrl u = pyRstripSlash u ++ "/api")) := by
  constructor
  · intro h
    have hcond : ¬ pyGetTruthy config.base_url = true ∨ ¬ pyGetTruthy config.token = true := by
      rcases h with h | h
      · exact Or.inl (by simp [h])
      · exact Or.inr (by simp [h])
    unfold get_api_client buildClient
    rw [if_pos hcond]
  · intro u t hu ht hu' ht'
    have hb : pyGetTruthy config.base_url = true := by simp [pyGetTruthy, hu, hu']
    have htk : pyGetTruthy config.token = true := by simp [pyGetTruthy, ht, ht']
    have hcond : ¬ (¬ pyGetTruthy config.base_url = true ∨ ¬ pyGetTruthy config.token = true) := by
      simp [hb, htk]
    refine ⟨?_, normalizeBaseUrl_ends u, ?_, ?_⟩
    · unfold get_api_client buildClient
      rw [if_neg hcond]
      simp [hu, ht]
    · intro h
      simp [normalizeBaseUrl, h]
    · intro h
      simp [normalizeBaseUrl, h]

/-- Witness for C5: a base URL with a trailing slash and no `/api` suffix,
and a config with an absent token. -/
theorem get_api_client_first_call_witness :
    (get_api_client { base_url := some "https://demo.firefly/", token := some "tok" } none).1 =
      .ok { host := normalizeBaseUrl "https://demo.firefly/", access_token := "tok" } ∧
    normalizeBaseUrl "https://demo.firefly/" = "https://demo.firefly/api" ∧
    (get_api_client { base_url := some "https://demo.firefly/", token := none } none).1 =
      .error (.valueError "Missing base_url or token in ~/.config/mcp-secrets.json") := by
  refine ⟨?_, by decide, ?_⟩
  · exact ((get_api_client_first_call _).2 "https://demo.firefly/" "tok" rfl rfl
      (by decide) (by decide)).1
  · exact (get_api_client_first_call _).1 (Or.inr (by decide))

/-- C6: across sequential `get_api_client()` calls the handle is constructed
at most once: once the first call succeeds, every call returns that same
handle, the global state stays fixed at it, and no call after the first
re-reads the configuration (zero `load_config()` invocations). -/
theorem client_constructed_once (config : FireflyConfig) (c : Configuration)
    (h : buildClient config = .ok c) (n : Nat) :
    (nthClientCall config n).1 = .ok c ∧
    clientStateAfter config (n + 1) = some c ∧
    (0 < n → (nthClientCall config n).2.2 = 0) := by
  have hstate : ∀ m, clientStateAfter config (m + 1) = some c := by
    intro m
    induction m with
    | zero =>
      rw [clientStateAfter, clientStateAfter]
      simp [get_api_client, h]
    | succ k ih =>
      rw [clientStateAfter, ih]
      rfl
  cases n with
  | zero =>
    refine ⟨?_, hstate 0, fun h0 => absurd h0 (lt_irrefl 0)⟩
    simp [nthClientCall, clientStateAfter, get_api_client, h]
  | succ k =>
    refine ⟨?_, hstate (k + 1), fun _ => ?_⟩
    · simp [nthClientCall, hstate k, get_api_client]
    · simp [nthClientCall, hstate k, get_api_client]

/-- Witness for C6: the third call returns the handle constructed by the
first call and reads the configuration zero times. -/
theorem client_constructed_once_witness :
    (nthClientCall { base_url := some "https://x", token := some "tok" } 2).1 =
      .ok { host := "https://x/api", access_token := "tok" } ∧
    clientStateAfter { base_url := some "https://x", token := some "tok" } 3 =
      some { host := "https://x/api", access_token := "tok" } ∧
    (0 < 2 →
      (nthClientCall { base_url := some "https://x", token := some "tok" } 2).2.2 = 0) :=
  client_constructed_once _ _ (by decide) 2

-- ===========================================================================
-- C8: the at-least-one-field rejection of update adapters
-- ===========================================================================

/-- C8 counterexample: `update_transaction` called with only the required
`transaction_id` and no optional field is NOT rejected with the
"at least one field" error: it issues two backend calls (the re-fetch and
the update, whose split is empty) and reports success. -/
theorem update_transaction_no_min_field_check_cx :
    update_transaction stubGetTxnOk stubUpdTxnOk "1" "" "" "" "" "" "" "" =
      ("✅ Updated transaction ID: 1",
       [.getTransaction "1", .updateTransaction "1" {}]) ∧
    (update_transaction stubGetTxnOk stubUpdTxnOk "1" "" "" "" "" "" "" "").1 ≠
      "❌ Error: At least one field to update is required" := by
  decide

/-- C8 (amended): the update adapters of the `update_account` shape reject a
call supplying the identifier but no optional field with the
"at least one field" error before any backend call, and otherwise issue one
backend call whose payload contains exactly the supplied fields
(partial-update semantics); `update_transaction` performs no such check and
proceeds to the backend even with an empty update. -/
theorem update_requires_some_field
    (upd : String → AccountUpdate → Except PyExc String)
    (account_id name active notes : String) (hid : pyStrip account_id ≠ "") :
    ((name = "" ∧ active = "" ∧ notes = "") →
      update_account upd account_id name active notes =
        ("❌ Error: At least one field to update is required", [])) ∧
    (¬ (name = "" ∧ active = "" ∧ notes = "") →
      (update_account upd account_id name active notes).2 =
        [(account_id, buildAccountUpdate name active notes)]) ∧
    (buildAccountUpdate name active notes).name =
      (if name = "" then none else some name) ∧
    (buildAccountUpdate name active notes).active =
      (if active = "" then none else some (decide (pyLower active = "true"))) ∧
    (buildAccountUpdate name active notes).notes =
      (if notes = "" then none else some notes) := by
  have hfields :
      (buildAccountUpdate name active notes).name = (if name = "" then none else some name) ∧
      (buildAccountUpdate name active notes).active =
        (if active = "" then none else some (decide (pyLower active = "true"))) ∧
      (buildAccountUpdate name active notes).notes =
        (if notes = "" then none else some notes) := by
    refine ⟨?_, ?_, ?_⟩ <;>
      · by_cases h : name = "" <;> by_cases h2 : active = "" <;> by_cases h3 : notes = "" <;>
          simp [buildAccountUpdate, pyTruthy, h, h2, h3]
  refine ⟨?_, ?_, hfields.1, hfields.2.1, hfields.2.2⟩
  · rintro ⟨h1, h2, h3⟩
    have hempty : buildAccountUpdate name active notes = {} := by
      simp [buildAccountUpdate, pyTruthy, h1, h2, h3]
    simp [update_account, hid, hempty]
  · intro hne
    have hnonempty : buildAccountUpdate name active notes ≠ {} := by
      intro hcontra
      apply hne
      by_cases h1 : name = "" <;> by_cases h2 : active = "" <;> by_cases h3 : notes = "" <;>
        simp_all [buildAccountUpdate, pyTruthy, AccountUpdate.mk.injEq]
    cases hcall : upd account_id (buildAccountUpdate name active notes) <;>
      simp [update_account, hid, hnonempty, hcall]

/-- Witness for the amended C8: rejection with no fields, single call with
one field. -/
theorem update_requires_some_field_witness :
    update_account stubUpdAccountOk "5" "" "" "" =
      ("❌ Error: At least one field to update is required", []) ∧
    (update_account stubUpdAccountOk "5" "New name" "" "").2 =
      [("5", buildAccountUpdate "New name" "" "")] := by
  have h1 := update_requires_some_field stubUpdAccountOk "5" "" "" "" (by decide)
  have h2 := update_requires_some_field stubUpdAccountOk "5" "New name" "" "" (by decide)
  exact ⟨h1.1 ⟨rfl, rfl, rfl⟩, h2.2.1 (by simp)⟩

-- ===========================================================================
-- C9: update_transaction re-fetches but does not merge
-- ===========================================================================

/-- C9 counterexample: `update_transaction` re-fetches an existing
transaction whose description is "old description", yet the update request
it then issues carries NO description (the field is absent, not the
existing value): the fetched record is bound and never used. -/
theorem update_transaction_does_not_merge_cx :
    (update_transaction stubGetTxnOk stubUpdTxnOk "9" "" "" "" "" "" "" "").2 =
      [.getTransaction "9", .updateTransaction "9" {}] ∧
    stubGetTxnOk "9" =
      .ok { description := "old description", amount := "50.00", date := "2024-01-01"
            category_name := some "Food", budget_id := some "2", notes := some "old notes" } ∧
    ({} : TransactionSplitUpdate).description = none ∧
    ({} : TransactionSplitUpdate).description ≠ some "old description" := by
  decide

/-- C9 (amended): `update_transaction` re-fetches the existing transaction
before issuing the update (the get call precedes the update call in the
backend trace), but does NOT merge the fetched fields: the update request is
built only from the supplied parameters, and every unsupplied field is
absent from the request rather than carrying the existing transaction's
value. -/
theorem update_transaction_refetch_no_merge
    (getTxn : String → Except PyExc ExistingTxn)
    (updTxn : String → TransactionSplitUpdate → Except PyExc Unit)
    (transaction_id description amount date category budget tags notes : String)
    (ex : ExistingTxn) (hid : pyStrip transaction_id ≠ "")
    (hget : getTxn transaction_id = .ok ex) :
    (update_transaction getTxn updTxn transaction_id description amount date category budget
        tags notes).2 =
      [.getTransaction transaction_id,
       .updateTransaction transaction_id
         (buildUpdateSplit description amount date category budget tags notes)] ∧
    (description = "" →
      (buildUpdateSplit description amount date category budget tags notes).description = none) ∧
    (amount = "" →
      (buildUpdateSplit description amount date category budget tags notes).amount = none) ∧
    (date = "" →
      (buildUpdateSplit description amount date category budget tags notes).date = none) ∧
    (category = "" →
      (buildUpdateSplit description amount date category budget tags notes).category_name = none) ∧
    (budget = "" →
      (buildUpdateSplit description amount date category budget tags notes).budget_id = none) ∧
    (notes = "" →
      (buildUpdateSplit description amount date category budget tags notes).notes = none) := by
  refine ⟨?_, ?_, ?_, ?_, ?_, ?_, ?_⟩
  · cases hcall : updTxn transaction_id
        (buildUpdateSplit description amount date category budget tags notes) <;>
      simp [update_transaction, hid, hget, hcall]
  all_goals intro h
  all_goals simp [buildUpdateSplit, pyTruthy, h]

/-- Witness for the amended C9 at concrete inputs (only the date field
supplied). -/
theorem update_transaction_refetch_no_merge_witness :
    (update_transaction stubGetTxnOk stubUpdTxnOk "9" "" "" "2024-06-01" "" "" "" "").2 =
      [.getTransaction "9",
       .updateTransaction "9" (buildUpdateSplit "" "" "2024-06-01" "" "" "" "")] ∧
    (buildUpdateSplit "" "" "2024-06-01" "" "" "" "").description = none := by
  have h := update_transaction_refetch_no_merge stubGetTxnOk stubUpdTxnOk "9" "" ""
    "2024-06-01" "" "" "" ""
    { description := "old description", amount := "50.00", date := "2024-01-01"
      category_name := some "Food", budget_id := some "2", notes := some "old notes" }
    (by decide) rfl
  exact ⟨h.1, h.2.1 rfl⟩

-- ===========================================================================
-- C7: aggregate grouping of the summary adapters
-- ===========================================================================

theorem lookupG_addToGroup (acc : List (String × ℚ)) (k' : String) (a : ℚ) (k : String) :
    lookupG (addToGroup acc k' a) k =
      (if k' = k then some ((lookupG acc k).getD 0 + a) else lookupG acc k) := by
  induction acc with
  | nil =>
    by_cases h : k' = k <;> simp [addToGroup, lookupG, h]
  | cons hd tl ih =>
    obtain ⟨k₀, v⟩ := hd
    by_cases h1 : k₀ = k'
    · subst h1
      by_cases h2 : k₀ = k <;> simp [addToGroup, lookupG, h2]
    · by_cases h2 : k₀ = k
      · subst h2
        have h1' : k' ≠ k₀ := fun h => h1 h.symm
        simp [addToGroup, lookupG, h1, h1']
      · simp [addToGroup, lookupG, h1, h2, ih]

theorem lookupG_foldl_group (key : TxnRow → String) (ts : List TxnRow) (k : String) :
    ∀ acc : List (String × ℚ),
      lookupG (ts.foldl (fun a t => addToGroup a (key t) t.amount) acc) k =
        (match lookupG acc k with
         | some v => some (v + groupSum key ts k)
         | none =>
           if ts.any (fun t => key t = k) then some (groupSum key ts k) else none) := by
  induction ts with
  | nil =>
    intro acc
    cases h : lookupG acc k <;> simp [groupSum, h]
  | cons t ts ih =>
    intro acc
    rw [List.foldl_cons, ih, lookupG_addToGroup]
    by_cases hk : key t = k
    · cases h : lookupG acc k with
      | none => simp [groupSum, List.filter_cons, hk, h, List.any_cons]
      | some v =>
        simp [groupSum, List.filter_cons, hk, h, List.any_cons, add_assoc]
    · cases h : lookupG acc k <;>
        simp [groupSum, List.filter_cons, hk, h, List.any_cons]

/-- C7: for both summary adapters (`spending_summary` and `income_summary`)
and any transactions, the per-group accumulated value equals the arithmetic
sum of that group's amounts (and a key appears in the grouping exactly when
some transaction maps to it); the running total equals the sum of all
amounts; and with nonnegative amounts the displayed percentage of a group
value `v` is `v / total * 100`, with a zero total producing `0` for every
group (no division-by-zero failure). -/
theorem summary_grouping_correct (group_by : String) (ts : List TxnRow)
    (h : ∀ t ∈ ts, 0 ≤ t.amount) :
    (∀ k : String,
      lookupG (summaryGroups (spendingKey group_by) ts) k =
        (if ts.any (fun t => spendingKey group_by t = k)
         then some (groupSum (spendingKey group_by) ts k) else none)) ∧
    (∀ k : String,
      lookupG (summaryGroups (incomeKey group_by) ts) k =
        (if ts.any (fun t => incomeKey group_by t = k)
         then some (groupSum (incomeKey group_by) ts k) else none)) ∧
    summaryTotal ts = (ts.map (fun t => t.amount)).sum ∧
    (summaryTotal ts = 0 → ∀ v : ℚ, summaryPct (summaryTotal ts) v = 0) ∧
    (summaryTotal ts ≠ 0 → ∀ v : ℚ,
      summaryPct (summaryTotal ts) v = v / summaryTotal ts * 100) := by
  have htotal : summaryTotal ts = (ts.map (fun t => t.amount)).sum := by
    simp [summaryTotal, List.sum_eq_foldl, List.foldl_map]
  refine ⟨?_, ?_, htotal, ?_, ?_⟩
  · intro k
    simpa [lookupG] using lookupG_foldl_group (spendingKey group_by) ts k []
  · intro k
    simpa [lookupG] using lookupG_foldl_group (incomeKey group_by) ts k []
  · intro h0 v
    simp [summaryPct, h0]
  · intro hne v
    have hnonneg : 0 ≤ summaryTotal ts := by
      rw [htotal]
      exact List.sum_nonneg (by simpa using h)
    have hpos : 0 < summaryTotal ts := lt_of_le_of_ne hnonneg (Ne.symm hne)
    simp [summaryPct, hpos]

/-- Witness for C7: three withdrawals, two sharing the category "Food"
(5 + 3), one uncategorized (2); the "Food" group sums to 8, the total is 10,
and the "Food" percentage is 80. -/
theorem summary_grouping_correct_witness :
    lookupG (summaryGroups (spendingKey "category")
        [{ amount := 5, category_name := some "Food", budget_name := none,
           source_name := "Checking", destination_name := "Job" },
         { amount := 3, category_name := some "Food", budget_name := none,
           source_name := "Checking", destination_name := "Job" },
         { amount := 2, category_name := none, budget_name := none,
           source_name := "Checking", destination_name := "Job" }]) "Food" = some 8 ∧
    summaryPct (summaryTotal
        [{ amount := 5, category_name := some "Food", budget_name := none,
           source_name := "Checking", destination_name := "Job" },
         { amount := 3, category_name := some "Food", budget_name := none,
           source_name := "Checking", destination_name := "Job" },
         { amount := 2, category_name := none, budget_name := none,
           source_name := "Checking", destination_name := "Job" }]) 8 = 80 := by
  have h := summary_grouping_correct "category"
    [{ amount := 5, category_name := some "Food", budget_name := none,
       source_name := "Checking", destination_name := "Job" },
     { amount := 3, category_name := some "Food", budget_name := none,
       source_name := "Checking", destination_name := "Job" },
     { amount := 2, category_name := none, budget_name := none,
       source_name := "Checking", destination_name := "Job" }]
    (by
      intro t ht
      simp only [List.mem_cons, List.not_mem_nil, or_false] at ht
      rcases ht with rfl | rfl | rfl <;> norm_num)
  constructor
  · rw [h.1 "Food"]
    norm_num [spendingKey, pyOrStr, groupSum, List.filter_cons,
      (show ("Food" : String) ≠ "" by decide),
      (show ("Uncategorized" : String) ≠ "Food" by decide),
      (show ("category" : String) = "category" from rfl)]
  · rw [h.2.2.2.2 (by norm_num [summaryTotal]) 8]
    norm_num [summaryTotal]
